import Mathlib

/-!
Verification of the activity-roster mutator (src/src/activities.py).

The Python module manages an in-memory dictionary mapping activity names to
activity records.  Each record is a dictionary with the fields description,
schedule, max_participants and participants (a list of e-mail strings).
Two operations mutate it: signup_participant and unregister_participant.
Both raise ActivityNotFound when the activity name is missing; signup raises
ValueError on a duplicate registration and unregister raises
ParticipantNotFound when the e-mail is absent.

We embed the dictionary as an association list (Python dictionaries keep
insertion order and have unique keys), each exception as a constructor of an
error type, and each in-place mutation as a function returning the new
roster inside Except.  The roster observed after a raising call is the
original one, because in the source both raise statements happen before any
mutation; afterSignup and afterUnregister make that explicit.
-/

/-- An activity record: the four fields of the Python activity dict. -/
structure Activity where
  description : String
  schedule : String
  max_participants : Nat
  participants : List String
deriving DecidableEq, Repr

/-- The activities dictionary: an ordered association of names to records. -/
abbrev Roster := List (String × Activity)

/-- The exceptions raised by the two operations. -/
inductive RosterError where
  | activityNotFound
  | valueError
  | participantNotFound
deriving DecidableEq, Repr

/-- Dictionary read: the record stored under a name, if any
(Python: activity_name in activities / activities[activity_name]). -/
def lookupActivity : Roster → String → Option Activity
  | [], _ => none
  | (k, a) :: rest, activity_name =>
      if k = activity_name then some a else lookupActivity rest activity_name

/-- In-place replacement of the record stored under a name
(Python mutates activities[activity_name] through the activity reference). -/
def updateActivity (activities : Roster) (activity_name : String) (a : Activity) :
    Roster :=
  activities.map (fun p => if p.1 = activity_name then (p.1, a) else p)

/-- Replace only the participants field of a record. -/
def setParticipants (a : Activity) (l : List String) : Activity :=
  ⟨a.description, a.schedule, a.max_participants, l⟩

/-- Replace only the max_participants field of a record. -/
def setCapacity (a : Activity) (c : Nat) : Activity :=
  ⟨a.description, a.schedule, c, a.participants⟩

/-- signup_participant (src/src/activities.py lines 19-43): validate the
activity exists, validate the student is not already signed up, then append
the e-mail to the participants list. -/
def signup_participant (activities : Roster) (activity_name : String)
    (email : String) : Except RosterError Roster :=
  match lookupActivity activities activity_name with
  | none => Except.error RosterError.activityNotFound
  | some activity =>
      if email ∈ activity.participants then
        Except.error RosterError.valueError
      else
        Except.ok (updateActivity activities activity_name
          (setParticipants activity (activity.participants ++ [email])))

/-- unregister_participant (src/src/activities.py lines 46-71): validate the
activity exists, validate the participant is signed up, then remove the first
occurrence of the e-mail (Python list.remove). -/
def unregister_participant (activities : Roster) (activity_name : String)
    (email : String) : Except RosterError Roster :=
  match lookupActivity activities activity_name with
  | none => Except.error RosterError.activityNotFound
  | some activity =>
      if email ∉ activity.participants then
        Except.error RosterError.participantNotFound
      else
        Except.ok (updateActivity activities activity_name
          (setParticipants activity (activity.participants.erase email)))

/-- The dictionary observed after a call to signup_participant: on an
exception the caller still sees the original dictionary. -/
def afterSignup (activities : Roster) (activity_name email : String) : Roster :=
  match signup_participant activities activity_name email with
  | Except.ok r => r
  | Except.error _ => activities

/-- The dictionary observed after a call to unregister_participant. -/
def afterUnregister (activities : Roster) (activity_name email : String) :
    Roster :=
  match unregister_participant activities activity_name email with
  | Except.ok r => r
  | Except.error _ => activities

/-- Sample dictionary taken from the test fixture. -/
def chessClub : Activity :=
  ⟨"Learn chess strategies", "Friday 3:30 PM", 12, ["alice@school.edu"]⟩

/-- Second sample activity from the test fixture. -/
def basketball : Activity :=
  ⟨"Play basketball", "Monday 4:00 PM", 15, []⟩

/-- Sample roster from the test fixture. -/
def sampleActivities : Roster :=
  [("Chess Club", chessClub), ("Basketball", basketball)]

/-- The spec invariant: no participants list holds a duplicate identifier. -/
abbrev RosterNodup (r : Roster) : Prop :=
  ∀ p ∈ r, p.2.participants.Nodup

/-- The sample roster after a successful signup, used as a concrete input. -/
def sampleAfterSignup : Roster :=
  afterSignup sampleActivities "Chess Club" "bob@school.edu"

/-! Helper lemmas about the roster operations. -/

theorem lookup_mem {r : Roster} {n : String} {a : Activity}
    (h : lookupActivity r n = some a) : (n, a) ∈ r := by
  induction r with
  | nil => simp [lookupActivity] at h
  | cons p rest ih =>
      obtain ⟨k, b⟩ := p
      by_cases hk : k = n
      · subst hk
        simp [lookupActivity] at h
        subst h
        exact List.mem_cons_self _ _
      · simp [lookupActivity, hk] at h
        exact List.mem_cons_of_mem _ (ih h)

theorem update_cons (k : String) (c : Activity) (rest : Roster) (n : String)
    (b : Activity) :
    updateActivity ((k, c) :: rest) n b =
      (if k = n then (k, b) else (k, c)) :: updateActivity rest n b := by
  simp [updateActivity]

theorem lookup_update_self {r : Roster} {n : String} {a : Activity}
    (b : Activity) (h : lookupActivity r n = some a) :
    lookupActivity (updateActivity r n b) n = some b := by
  induction r with
  | nil => simp [lookupActivity] at h
  | cons p rest ih =>
      obtain ⟨k, c⟩ := p
      rw [update_cons]
      by_cases hk : k = n
      · rw [if_pos hk]
        simp [lookupActivity, hk]
      · rw [if_neg hk]
        simp only [lookupActivity, if_neg hk] at h ⊢
        exact ih h

theorem mem_update {r : Roster} {n : String} {b : Activity} {p : String × Activity}
    (h : p ∈ updateActivity r n b) : p ∈ r ∨ p.2 = b := by
  simp only [updateActivity, List.mem_map] at h
  obtain ⟨q, hq, hqe⟩ := h
  by_cases hk : q.1 = n
  · right
    simp [hk] at hqe
    rw [← hqe]
  · left
    simp [hk] at hqe
    rw [← hqe]
    exact hq

theorem update_map_fst (r : Roster) (n : String) (b : Activity) :
    (updateActivity r n b).map Prod.fst = r.map Prod.fst := by
  simp only [updateActivity, List.map_map]
  apply List.map_congr_left
  intro p _
  by_cases hk : p.1 = n <;> simp [hk]

theorem setParticipants_self (a : Activity) :
    setParticipants a a.participants = a := by
  cases a
  rfl

@[simp]
theorem setParticipants_participants (a : Activity) (l : List String) :
    (setParticipants a l).participants = l := rfl

@[simp]
theorem setParticipants_description (a : Activity) (l : List String) :
    (setParticipants a l).description = a.description := rfl

@[simp]
theorem setParticipants_schedule (a : Activity) (l : List String) :
    (setParticipants a l).schedule = a.schedule := rfl

@[simp]
theorem setParticipants_max (a : Activity) (l : List String) :
    (setParticipants a l).max_participants = a.max_participants := rfl

@[simp]
theorem setCapacity_participants (a : Activity) (c : Nat) :
    (setCapacity a c).participants = a.participants := rfl

theorem nodup_append_singleton {l : List String} {e : String}
    (hn : l.Nodup) (he : e ∉ l) : (l ++ [e]).Nodup := by
  simp [List.nodup_append, hn, he]

/-- C1: for every roster, activity name and e-mail, signup_participant raises
ActivityNotFound exactly when the name is absent; when the activity exists it
raises ValueError exactly when the e-mail is already among the participants,
and otherwise succeeds, appending the e-mail at the end of that participants
list. -/
theorem signup_case_analysis (r : Roster) (n e : String) :
    (signup_participant r n e = Except.error RosterError.activityNotFound ↔
      lookupActivity r n = none) ∧
    (∀ a, lookupActivity r n = some a →
      ((signup_participant r n e = Except.error RosterError.valueError ↔
          e ∈ a.participants) ∧
        (e ∉ a.participants →
          signup_participant r n e =
            Except.ok (updateActivity r n
              (setParticipants a (a.participants ++ [e])))))) := by
  constructor
  · constructor
    · intro h
      cases hl : lookupActivity r n with
      | none => rfl
      | some a =>
          simp only [signup_participant, hl] at h
          by_cases he : e ∈ a.participants <;> simp [he] at h
    · intro h
      simp [signup_participant, h]
  · intro a ha
    constructor
    · constructor
      · intro h
        simp only [signup_participant, ha] at h
        by_cases he : e ∈ a.participants
        · exact he
        · simp [he] at h
      · intro he
        simp [signup_participant, ha, he]
    · intro he
      simp [signup_participant, ha, he]

/-- C1 witness: concrete instances of the three branches on the test
fixture. -/
theorem signup_case_analysis_witness :
    lookupActivity sampleActivities "Chess Club" = some chessClub ∧
    "alice@school.edu" ∈ chessClub.participants ∧
    signup_participant sampleActivities "Chess Club" "alice@school.edu" =
      Except.error RosterError.valueError :=
  ⟨by decide, by decide,
    ((signup_case_analysis sampleActivities "Chess Club"
      "alice@school.edu").2 chessClub (by decide)).1.mpr (by decide)⟩

/-- C2: for every roster, activity name and e-mail, unregister_participant
raises ActivityNotFound exactly when the name is absent; when the activity
exists it raises ParticipantNotFound exactly when the e-mail is not among the
participants, and otherwise succeeds, removing the first occurrence of the
e-mail from that participants list. -/
theorem unregister_case_analysis (r : Roster) (n e : String) :
    (unregister_participant r n e = Except.error RosterError.activityNotFound ↔
      lookupActivity r n = none) ∧
    (∀ a, lookupActivity r n = some a →
      ((unregister_participant r n e =
          Except.error RosterError.participantNotFound ↔
          e ∉ a.participants) ∧
        (e ∈ a.participants →
          unregister_participant r n e =
            Except.ok (updateActivity r n
              (setParticipants a (a.participants.erase e)))))) := by
  constructor
  · constructor
    · intro h
      cases hl : lookupActivity r n with
      | none => rfl
      | some a =>
          simp only [unregister_participant, hl] at h
          by_cases he : e ∈ a.participants <;> simp [he] at h
    · intro h
      simp [unregister_participant, h]
  · intro a ha
    constructor
    · constructor
      · intro h
        simp only [unregister_participant, ha] at h
        by_cases he : e ∈ a.participants
        · simp [he] at h
        · exact he
      · intro he
        simp [unregister_participant, ha, he]
    · intro he
      simp [unregister_participant, ha, he]

/-- C2 witness: concrete instances on the test fixture. -/
theorem unregister_case_analysis_witness :
    lookupActivity sampleActivities "Chess Club" = some chessClub ∧
    "alice@school.edu" ∈ chessClub.participants ∧
    unregister_participant sampleActivities "Chess Club" "alice@school.edu" =
      Except.ok (updateActivity sampleActivities "Chess Club"
        (setParticipants chessClub (chessClub.participants.erase
          "alice@school.edu"))) :=
  ⟨by decide, by decide,
    ((unregister_case_analysis sampleActivities "Chess Club"
      "alice@school.edu").2 chessClub (by decide)).2 (by decide)⟩

/-- C3: when the activity exists and the e-mail is not yet signed up, signup
succeeds; afterwards the participants list of that activity is the old list
with the e-mail appended at the end, so it contains the e-mail exactly once,
is one element longer, and keeps the previous elements in order. -/
theorem signup_appends (r : Roster) (n e : String) (a : Activity)
    (ha : lookupActivity r n = some a) (he : e ∉ a.participants) :
    ∃ a', signup_participant r n e = Except.ok (updateActivity r n a') ∧
      a'.participants = a.participants ++ [e] ∧
      a'.participants.count e = 1 ∧
      a'.participants.length = a.participants.length + 1 ∧
      lookupActivity (updateActivity r n a') n = some a' := by
  refine ⟨setParticipants a (a.participants ++ [e]), ?_, rfl, ?_, ?_, ?_⟩
  · simp [signup_participant, ha, he]
  · simp [setParticipants, List.count_append, List.count_eq_zero.mpr he]
  · simp [setParticipants]
  · exact lookup_update_self _ ha

/-- C3 witness: signing bob up for the chess club on the test fixture. -/
theorem signup_appends_witness :
    lookupActivity sampleActivities "Chess Club" = some chessClub ∧
    "bob@school.edu" ∉ chessClub.participants ∧
    ∃ a', signup_participant sampleActivities "Chess Club" "bob@school.edu" =
        Except.ok (updateActivity sampleActivities "Chess Club" a') ∧
      a'.participants = chessClub.participants ++ ["bob@school.edu"] ∧
      a'.participants.count "bob@school.edu" = 1 ∧
      a'.participants.length = chessClub.participants.length + 1 ∧
      lookupActivity (updateActivity sampleActivities "Chess Club" a')
        "Chess Club" = some a' :=
  ⟨by decide, by decide,
    signup_appends sampleActivities "Chess Club" "bob@school.edu" chessClub
      (by decide) (by decide)⟩

/-- C4: when the activity exists and the e-mail is signed up, unregister
succeeds; afterwards the participants list of that activity is the old list
with its first occurrence of the e-mail removed: one element shorter, and the
remaining elements keep their relative order. -/
theorem unregister_removes_first (r : Roster) (n e : String) (a : Activity)
    (ha : lookupActivity r n = some a) (he : e ∈ a.participants) :
    ∃ a', unregister_participant r n e = Except.ok (updateActivity r n a') ∧
      a'.participants = a.participants.erase e ∧
      a'.participants.length + 1 = a.participants.length ∧
      (∃ l₁ l₂, e ∉ l₁ ∧ a.participants = l₁ ++ e :: l₂ ∧
        a'.participants = l₁ ++ l₂) ∧
      lookupActivity (updateActivity r n a') n = some a' := by
  refine ⟨setParticipants a (a.participants.erase e), ?_, rfl, ?_, ?_, ?_⟩
  · simp [unregister_participant, ha, he]
  · have hlen := List.length_erase_of_mem he
    have hpos : 0 < a.participants.length :=
      List.length_pos.mpr (List.ne_nil_of_mem he)
    simp only [setParticipants_participants]
    omega
  · obtain ⟨l₁, l₂, hnm, hsplit, herase⟩ := List.exists_erase_eq he
    exact ⟨l₁, l₂, hnm, hsplit, herase⟩
  · exact lookup_update_self _ ha

/-- C4 witness: unregistering alice from the chess club on the test
fixture. -/
theorem unregister_removes_first_witness :
    lookupActivity sampleActivities "Chess Club" = some chessClub ∧
    "alice@school.edu" ∈ chessClub.participants ∧
    ∃ a', unregister_participant sampleActivities "Chess Club"
        "alice@school.edu" =
        Except.ok (updateActivity sampleActivities "Chess Club" a') ∧
      a'.participants = chessClub.participants.erase "alice@school.edu" ∧
      a'.participants.length + 1 = chessClub.participants.length ∧
      (∃ l₁ l₂, "alice@school.edu" ∉ l₁ ∧
        chessClub.participants = l₁ ++ "alice@school.edu" :: l₂ ∧
        a'.participants = l₁ ++ l₂) ∧
      lookupActivity (updateActivity sampleActivities "Chess Club" a')
        "Chess Club" = some a' :=
  ⟨by decide, by decide,
    unregister_removes_first sampleActivities "Chess Club" "alice@school.edu"
      chessClub (by decide) (by decide)⟩

/-- C5: when the activity exists and the e-mail is already among its
participants, signup raises ValueError and the roster the caller sees after
the call is exactly the roster from before it. -/
theorem signup_duplicate_no_mutation (r : Roster) (n e : String) (a : Activity)
    (ha : lookupActivity r n = some a) (he : e ∈ a.participants) :
    signup_participant r n e = Except.error RosterError.valueError ∧
      afterSignup r n e = r := by
  have hs : signup_participant r n e = Except.error RosterError.valueError := by
    simp [signup_participant, ha, he]
  exact ⟨hs, by simp [afterSignup, hs]⟩

/-- C5 witness: signing alice up a second time on the test fixture. -/
theorem signup_duplicate_no_mutation_witness :
    lookupActivity sampleActivities "Chess Club" = some chessClub ∧
    "alice@school.edu" ∈ chessClub.participants ∧
    (signup_participant sampleActivities "Chess Club" "alice@school.edu" =
        Except.error RosterError.valueError ∧
      afterSignup sampleActivities "Chess Club" "alice@school.edu" =
        sampleActivities) :=
  ⟨by decide, by decide,
    signup_duplicate_no_mutation sampleActivities "Chess Club"
      "alice@school.edu" chessClub (by decide) (by decide)⟩

/-- C6: a signup on an absent activity raises ActivityNotFound, and any
failing unregister (absent activity, or e-mail not among that activity
participants) raises the corresponding exception; in every such case the
roster the caller sees afterwards is exactly the original one. -/
theorem failed_calls_leave_roster_unchanged (r : Roster) (n e : String) :
    (lookupActivity r n = none →
      (signup_participant r n e = Except.error RosterError.activityNotFound ∧
        afterSignup r n e = r) ∧
      (unregister_participant r n e =
          Except.error RosterError.activityNotFound ∧
        afterUnregister r n e = r)) ∧
    (∀ a, lookupActivity r n = some a → e ∉ a.participants →
      unregister_participant r n e =
          Except.error RosterError.participantNotFound ∧
        afterUnregister r n e = r) := by
  constructor
  · intro h
    have hs : signup_participant r n e =
        Except.error RosterError.activityNotFound := by
      simp [signup_participant, h]
    have hu : unregister_participant r n e =
        Except.error RosterError.activityNotFound := by
      simp [unregister_participant, h]
    exact ⟨⟨hs, by simp [afterSignup, hs]⟩, ⟨hu, by simp [afterUnregister, hu]⟩⟩
  · intro a ha he
    have hu : unregister_participant r n e =
        Except.error RosterError.participantNotFound := by
      simp [unregister_participant, ha, he]
    exact ⟨hu, by simp [afterUnregister, hu]⟩

/-- C6 witness: a missing activity and a missing participant on the test
fixture. -/
theorem failed_calls_leave_roster_unchanged_witness :
    lookupActivity sampleActivities "Yoga Club" = none ∧
    ((signup_participant sampleActivities "Yoga Club" "dave@school.edu" =
          Except.error RosterError.activityNotFound ∧
        afterSignup sampleActivities "Yoga Club" "dave@school.edu" =
          sampleActivities) ∧
      (unregister_participant sampleActivities "Yoga Club" "dave@school.edu" =
          Except.error RosterError.activityNotFound ∧
        afterUnregister sampleActivities "Yoga Club" "dave@school.edu" =
          sampleActivities)) ∧
    (unregister_participant sampleActivities "Basketball" "alice@school.edu" =
        Except.error RosterError.participantNotFound ∧
      afterUnregister sampleActivities "Basketball" "alice@school.edu" =
        sampleActivities) :=
  ⟨by decide,
    (failed_calls_leave_roster_unchanged sampleActivities "Yoga Club"
      "dave@school.edu").1 (by decide),
    (failed_calls_leave_roster_unchanged sampleActivities "Basketball"
      "alice@school.edu").2 basketball (by decide) (by decide)⟩

theorem append_singleton_erase {l : List String} {e : String} (he : e ∉ l) :
    (l ++ [e]).erase e = l := by
  rw [List.erase_append_right _ he, List.erase_cons_head, List.append_nil]

/-- C7: when the activity exists and the e-mail is not yet signed up, signup
followed by unregister with the same name and e-mail succeeds in both steps
and the activity record, in particular its participants list, is back to its
state before the signup. -/
theorem signup_unregister_roundtrip (r : Roster) (n e : String) (a : Activity)
    (ha : lookupActivity r n = some a) (he : e ∉ a.participants) :
    ∃ r₁ r₂, signup_participant r n e = Except.ok r₁ ∧
      unregister_participant r₁ n e = Except.ok r₂ ∧
      lookupActivity r₂ n = some a := by
  set a₁ := setParticipants a (a.participants ++ [e]) with ha₁
  have hs : signup_participant r n e =
      Except.ok (updateActivity r n a₁) := by
    simp [signup_participant, ha, he, ha₁]
  have hl₁ : lookupActivity (updateActivity r n a₁) n = some a₁ :=
    lookup_update_self _ ha
  have he₁ : e ∈ a₁.participants := by
    simp [ha₁]
  have hu : unregister_participant (updateActivity r n a₁) n e =
      Except.ok (updateActivity (updateActivity r n a₁) n
        (setParticipants a₁ (a₁.participants.erase e))) := by
    simp [unregister_participant, hl₁, he₁]
  have hrestore : setParticipants a₁ (a₁.participants.erase e) = a := by
    rw [ha₁, setParticipants_participants, append_singleton_erase he]
    exact setParticipants_self a
  refine ⟨updateActivity r n a₁, _, hs, hu, ?_⟩
  rw [hrestore]
  exact lookup_update_self _ hl₁

/-- C7 witness: signing henry up for the chess club and removing him again on
the test fixture. -/
theorem signup_unregister_roundtrip_witness :
    lookupActivity sampleActivities "Chess Club" = some chessClub ∧
    "henry@school.edu" ∉ chessClub.participants ∧
    ∃ r₁ r₂,
      signup_participant sampleActivities "Chess Club" "henry@school.edu" =
        Except.ok r₁ ∧
      unregister_participant r₁ "Chess Club" "henry@school.edu" =
        Except.ok r₂ ∧
      lookupActivity r₂ "Chess Club" = some chessClub :=
  ⟨by decide, by decide,
    signup_unregister_roundtrip sampleActivities "Chess Club"
      "henry@school.edu" chessClub (by decide) (by decide)⟩

/-- C8: if no participants list of any activity holds a duplicate, then after
any call to signup_participant or unregister_participant, successful or not,
no participants list holds a duplicate. -/
theorem nodup_invariant_preserved (r : Roster) (n e : String)
    (h : RosterNodup r) :
    RosterNodup (afterSignup r n e) ∧ RosterNodup (afterUnregister r n e) := by
  constructor
  · cases hl : lookupActivity r n with
    | none =>
        have : afterSignup r n e = r := by
          simp [afterSignup, signup_participant, hl]
        rw [this]; exact h
    | some a =>
        by_cases he : e ∈ a.participants
        · have : afterSignup r n e = r := by
            simp [afterSignup, signup_participant, hl, he]
          rw [this]; exact h
        · have : afterSignup r n e =
              updateActivity r n (setParticipants a (a.participants ++ [e])) := by
            simp [afterSignup, signup_participant, hl, he]
          rw [this]
          intro p hp
          rcases mem_update hp with hmem | heq
          · exact h p hmem
          · rw [heq, setParticipants_participants]
            exact nodup_append_singleton (h (n, a) (lookup_mem hl)) he
  · cases hl : lookupActivity r n with
    | none =>
        have : afterUnregister r n e = r := by
          simp [afterUnregister, unregister_participant, hl]
        rw [this]; exact h
    | some a =>
        by_cases he : e ∈ a.participants
        · have : afterUnregister r n e =
              updateActivity r n (setParticipants a (a.participants.erase e)) := by
            simp [afterUnregister, unregister_participant, hl, he]
          rw [this]
          intro p hp
          rcases mem_update hp with hmem | heq
          · exact h p hmem
          · rw [heq, setParticipants_participants]
            exact List.Nodup.erase e (h (n, a) (lookup_mem hl))
        · have : afterUnregister r n e = r := by
            simp [afterUnregister, unregister_participant, hl, he]
          rw [this]; exact h

/-- C8 witness: the invariant on the test fixture before and after one signup
and one unregister. -/
theorem nodup_invariant_preserved_witness :
    RosterNodup sampleActivities ∧
    (RosterNodup (afterSignup sampleActivities "Chess Club" "bob@school.edu") ∧
      RosterNodup
        (afterUnregister sampleActivities "Chess Club" "bob@school.edu")) :=
  ⟨by decide,
    nodup_invariant_preserved sampleActivities "Chess Club" "bob@school.edu"
      (by decide)⟩

/-- C9: the capacity field plays no role in signup: for every capacity value,
replacing the capacity of an existing activity whose participants list lacks
the e-mail, signup still succeeds and appends the e-mail. -/
theorem signup_ignores_capacity (r : Roster) (n e : String) (a : Activity)
    (c : Nat) (ha : lookupActivity r n = some a) (he : e ∉ a.participants) :
    signup_participant (updateActivity r n (setCapacity a c)) n e =
      Except.ok (updateActivity (updateActivity r n (setCapacity a c)) n
        (setParticipants (setCapacity a c) (a.participants ++ [e]))) ∧
    (setParticipants (setCapacity a c) (a.participants ++ [e])).participants =
      a.participants ++ [e] := by
  have hl : lookupActivity (updateActivity r n (setCapacity a c)) n =
      some (setCapacity a c) := lookup_update_self _ ha
  have he2 : e ∉ (setCapacity a c).participants := by
    rw [setCapacity_participants]; exact he
  constructor
  · simp [signup_participant, hl, he2, he]
  · rfl

/-- C9 witness: the chess club with its capacity set to 0, so that the list
length already exceeds the capacity, still accepts a signup. -/
theorem signup_ignores_capacity_witness :
    lookupActivity sampleActivities "Chess Club" = some chessClub ∧
    (setCapacity chessClub 0).max_participants ≤
      (setCapacity chessClub 0).participants.length ∧
    (signup_participant
        (updateActivity sampleActivities "Chess Club" (setCapacity chessClub 0))
        "Chess Club" "bob@school.edu" =
      Except.ok (updateActivity
        (updateActivity sampleActivities "Chess Club" (setCapacity chessClub 0))
        "Chess Club"
        (setParticipants (setCapacity chessClub 0)
          (chessClub.participants ++ ["bob@school.edu"]))) ∧
    (setParticipants (setCapacity chessClub 0)
        (chessClub.participants ++ ["bob@school.edu"])).participants =
      chessClub.participants ++ ["bob@school.edu"]) :=
  ⟨by decide, by decide,
    signup_ignores_capacity sampleActivities "Chess Club" "bob@school.edu"
      chessClub 0 (by decide) (by decide)⟩

theorem ok_is_update {r r' : Roster} {n e : String}
    (h : signup_participant r n e = Except.ok r' ∨
      unregister_participant r n e = Except.ok r') :
    ∃ a l, lookupActivity r n = some a ∧
      r' = updateActivity r n (setParticipants a l) := by
  cases h with
  | inl hs =>
      cases hl : lookupActivity r n with
      | none => simp [signup_participant, hl] at hs
      | some a =>
          by_cases he : e ∈ a.participants
          · simp [signup_participant, hl, he] at hs
          · refine ⟨a, a.participants ++ [e], rfl, ?_⟩
            simp [signup_participant, hl, he] at hs
            exact hs.symm
  | inr hu =>
      cases hl : lookupActivity r n with
      | none => simp [unregister_participant, hl] at hu
      | some a =>
          by_cases he : e ∈ a.participants
          · refine ⟨a, a.participants.erase e, rfl, ?_⟩
            simp [unregister_participant, hl, he] at hu
            exact hu.symm
          · simp [unregister_participant, hl, he] at hu

/-- C10: a successful signup or unregister keeps the same activity names in
the same order, keeps every entry stored under a different name unchanged at
its position, and keeps the description, schedule and capacity of the
targeted activity unchanged. -/
theorem successful_call_frame (r : Roster) (n e : String) (r' : Roster)
    (h : signup_participant r n e = Except.ok r' ∨
      unregister_participant r n e = Except.ok r') :
    r'.map Prod.fst = r.map Prod.fst ∧
    (∀ i, (hi : i < r.length) → (hi' : i < r'.length) →
      (r.get ⟨i, hi⟩).1 ≠ n → r'.get ⟨i, hi'⟩ = r.get ⟨i, hi⟩) ∧
    (∀ a a', lookupActivity r n = some a → lookupActivity r' n = some a' →
      a'.description = a.description ∧ a'.schedule = a.schedule ∧
      a'.max_participants = a.max_participants) := by
  obtain ⟨a, l, hl, hup⟩ := ok_is_update h
  subst hup
  refine ⟨update_map_fst r n _, ?_, ?_⟩
  · intro i hi hi' hne
    simp only [List.get_eq_getElem] at hne ⊢
    simp only [updateActivity, List.getElem_map]
    rw [if_neg hne]
  · intro b b' hb hb'
    rw [hl] at hb
    cases hb
    rw [lookup_update_self _ hl] at hb'
    cases hb'
    exact ⟨rfl, rfl, rfl⟩

/-- C10 witness: the frame facts for a concrete successful signup on the test
fixture. -/
theorem successful_call_frame_witness :
    signup_participant sampleActivities "Chess Club" "bob@school.edu" =
      Except.ok sampleAfterSignup ∧
    (sampleAfterSignup.map Prod.fst = sampleActivities.map Prod.fst ∧
      (∀ i, (hi : i < sampleActivities.length) →
        (hi' : i < sampleAfterSignup.length) →
        (sampleActivities.get ⟨i, hi⟩).1 ≠ "Chess Club" →
        sampleAfterSignup.get ⟨i, hi'⟩ = sampleActivities.get ⟨i, hi⟩) ∧
      (∀ a a', lookupActivity sampleActivities "Chess Club" = some a →
        lookupActivity sampleAfterSignup "Chess Club" = some a' →
        a'.description = a.description ∧ a'.schedule = a.schedule ∧
        a'.max_participants = a.max_participants)) :=
  ⟨by rfl,
    successful_call_frame sampleActivities "Chess Club" "bob@school.edu"
      sampleAfterSignup (Or.inl (by rfl))⟩
